import Mathlib

/-!
Verification development for the Vizzy chat orchestration engine
(`chat/services.py`).  The Python module is shallowly embedded: pure
computations (intent keyword scoring, seed derivation, URL construction,
context-memory folding, GIF assembly structure) are translated directly;
every outbound network call, storage write and random draw is modelled as
an oracle field of an explicit `Env` record, so that the control flow of
the orchestrator — which provider is consulted when, and what is returned
to the caller — is a total function of the request and that environment.
Machine integers do not occur in the source (Python integers are unbounded);
the MD5 computation used for mock seeds works on `Nat` with explicit
`% 2^32` reductions exactly as the algorithm specifies.
-/

/-! ## Python string primitives used by the module -/

/-- Python `str.lower()` (the module only lowercases ASCII keyword text). -/
def pyLower (s : String) : String := String.mk (s.toList.map Char.toLower)

/-- Bool-valued infix test on character lists: `n` occurs contiguously in the list. -/
def infixOf (n : List Char) : List Char → Bool
  | [] => n.isEmpty
  | c :: t => n.isPrefixOf (c :: t) || infixOf n t

/-- Python `needle in hay` on strings (substring containment). -/
def pyIn (needle hay : String) : Bool := infixOf needle.toList hay.toList

/-- Python `str.strip()` (whitespace at both ends). -/
def pyStrip (s : String) : String :=
  String.mk (((s.toList.dropWhile Char.isWhitespace).reverse.dropWhile Char.isWhitespace).reverse)

/-- Python `str.rstrip('.!')`. -/
def pyRstripPunct (s : String) : String :=
  String.mk ((s.toList.reverse.dropWhile (fun c => c == '.' || c == '!')).reverse)

/-- Python slice `s[:n]`. -/
def pyTake (n : Nat) (s : String) : String := String.mk (s.toList.take n)

/-- Python `', '.join(l)`. -/
def joinComma (l : List String) : String := String.intercalate ", " l

/-- Helper for `str.title()`: the Bool says whether the previous char was alphabetic. -/
def titleChars : Bool → List Char → List Char
  | _, [] => []
  | prevAlpha, c :: t =>
    let isA := c.isAlpha
    (if isA then (if prevAlpha then c.toLower else c.toUpper) else c) :: titleChars isA t

/-- Python `str.title()` (capitalise the first letter of every alphabetic run). -/
def pyTitle (s : String) : String := String.mk (titleChars false s.toList)

/-! ## MD5 (hashlib.md5), on `Nat` with explicit mod-2^32 arithmetic

`_generate_seed` calls `hashlib.md5(text.encode()).hexdigest()[:8]`; the
texts hashed by the module are ASCII, for which UTF-8 encoding is the
identity on code points. -/

/-- Bytes of an (ASCII) string, as Python `str.encode()` produces for ASCII input. -/
def strBytes (s : String) : List Nat := s.toList.map Char.toNat

def add32 (a b : Nat) : Nat := (a + b) % 4294967296

def not32 (x : Nat) : Nat := 4294967295 - x

def rotl32 (x s : Nat) : Nat := ((x <<< s) % 4294967296) ||| (x >>> (32 - s))

/-- Little-endian byte expansion, fixed width. -/
def leBytes : Nat → Nat → List Nat
  | 0, _ => []
  | n + 1, x => (x % 256) :: leBytes n (x / 256)

/-- MD5 per-round sine-derived constants (RFC 1321 T table). -/
def md5K : List Nat :=
  [0xd76aa478, 0xe8c7b756, 0x242070db, 0xc1bdceee,
   0xf57c0faf, 0x4787c62a, 0xa8304613, 0xfd469501,
   0x698098d8, 0x8b44f7af, 0xffff5bb1, 0x895cd7be,
   0x6b901122, 0xfd987193, 0xa679438e, 0x49b40821,
   0xf61e2562, 0xc040b340, 0x265e5a51, 0xe9b6c7aa,
   0xd62f105d, 0x02441453, 0xd8a1e681, 0xe7d3fbc8,
   0x21e1cde6, 0xc33707d6, 0xf4d50d87, 0x455a14ed,
   0xa9e3e905, 0xfcefa3f8, 0x676f02d9, 0x8d2a4c8a,
   0xfffa3942, 0x8771f681, 0x6d9d6122, 0xfde5380c,
   0xa4beea44, 0x4bdecfa9, 0xf6bb4b60, 0xbebfbc70,
   0x289b7ec6, 0xeaa127fa, 0xd4ef3085, 0x04881d05,
   0xd9d4d039, 0xe6db99e5, 0x1fa27cf8, 0xc4ac5665,
   0xf4292244, 0x432aff97, 0xab9423a7, 0xfc93a039,
   0x655b59c3, 0x8f0ccc92, 0xffeff47d, 0x85845dd1,
   0x6fa87e4f, 0xfe2ce6e0, 0xa3014314, 0x4e0811a1,
   0xf7537e82, 0xbd3af235, 0x2ad7d2bb, 0xeb86d391]

/-- MD5 per-round left-rotation amounts. -/
def md5S : List Nat :=
  [7, 12, 17, 22, 7, 12, 17, 22, 7, 12, 17, 22, 7, 12, 17, 22,
   5, 9, 14, 20, 5, 9, 14, 20, 5, 9, 14, 20, 5, 9, 14, 20,
   4, 11, 16, 23, 4, 11, 16, 23, 4, 11, 16, 23, 4, 11, 16, 23,
   6, 10, 15, 21, 6, 10, 15, 21, 6, 10, 15, 21, 6, 10, 15, 21]

/-- One MD5 round applied to the running (A,B,C,D) state, block words `M`. -/
def md5round (M : List Nat) (st : Nat × Nat × Nat × Nat) (i : Nat) : Nat × Nat × Nat × Nat :=
  let a := st.1
  let b := st.2.1
  let c := st.2.2.1
  let d := st.2.2.2
  let f :=
    if i < 16 then (b &&& c) ||| (not32 b &&& d)
    else if i < 32 then (d &&& b) ||| (not32 d &&& c)
    else if i < 48 then b ^^^ c ^^^ d
    else c ^^^ (b ||| not32 d)
  let g :=
    if i < 16 then i
    else if i < 32 then (5 * i + 1) % 16
    else if i < 48 then (3 * i + 5) % 16
    else (7 * i) % 16
  let tmp := add32 (add32 (add32 a f) (md5K.getD i 0)) (M.getD g 0)
  (d, add32 b (rotl32 tmp (md5S.getD i 0)), b, c)

/-- Process one 16-word block through the 64 MD5 rounds and add the result in. -/
def md5block (st : Nat × Nat × Nat × Nat) (M : List Nat) : Nat × Nat × Nat × Nat :=
  let r := (List.range 64).foldl (md5round M) st
  (add32 st.1 r.1, add32 st.2.1 r.2.1, add32 st.2.2.1 r.2.2.1, add32 st.2.2.2 r.2.2.2)

/-- MD5 padding: append 0x80, zero-fill to 56 mod 64, then the 64-bit LE bit length. -/
def md5pad (msg : List Nat) : List Nat :=
  let len := msg.length
  let zeros := (120 - ((len + 1) % 64)) % 64
  msg ++ [0x80] ++ List.replicate zeros 0 ++ leBytes 8 ((len * 8) % 18446744073709551616)

/-- Group bytes into little-endian 32-bit words; the fuel is the word count. -/
def toWords : Nat → List Nat → List Nat
  | 0, _ => []
  | n + 1, bs =>
    (bs.getD 0 0 + bs.getD 1 0 * 256 + bs.getD 2 0 * 65536 + bs.getD 3 0 * 16777216)
      :: toWords n (bs.drop 4)

/-- Split a word list into 16-word blocks; the fuel is the block count. -/
def wordBlocks : Nat → List Nat → List (List Nat)
  | 0, _ => []
  | n + 1, ws => ws.take 16 :: wordBlocks n (ws.drop 16)

/-- MD5 digest of a byte sequence, as 16 bytes. -/
def md5bytes (msg : List Nat) : List Nat :=
  let padded := md5pad msg
  let ws := toWords (padded.length / 4) padded
  let blocks := wordBlocks (ws.length / 16) ws
  let r := blocks.foldl md5block (0x67452301, 0xefcdab89, 0x98badcfe, 0x10325476)
  leBytes 4 r.1 ++ leBytes 4 r.2.1 ++ leBytes 4 r.2.2.1 ++ leBytes 4 r.2.2.2

/-- Lower-case hex digit. -/
def hexChar (n : Nat) : Char := if n < 10 then Char.ofNat (48 + n) else Char.ofNat (87 + n)

/-- Python `hexdigest()`: lower-case hex string of the digest bytes. -/
def hexDigest (bytes : List Nat) : String :=
  String.mk ((bytes.map (fun b => [hexChar (b / 16), hexChar (b % 16)])).flatten)

/-- Value of one lower-case hex digit. -/
def hexVal (c : Char) : Nat := if 97 ≤ c.toNat then c.toNat - 87 else c.toNat - 48

/-- Python `int(s, 16)` on lower-case hex digits. -/
def parseHex (cs : List Char) : Nat := cs.foldl (fun acc c => acc * 16 + hexVal c) 0

/-! ## Data model

`Img` abstracts a PIL image: its pixel dimensions plus an opaque content
tag; `resize` changes the dimensions and keeps the content.  `Gif` is the
structure encoded by `Image.save(..., save_all=True, append_images=...,
duration=500, loop=0)`.  Conversations and messages mirror the Django
models read by the service (`Message.role`, `Message.message_type`,
`Conversation.user_context['preferred_styles']`). -/

structure Img where
  width : Nat
  height : Nat
  tag : Nat
deriving DecidableEq, Repr

structure Gif where
  frames : List Img
  durationMs : Nat
  loopCount : Nat
deriving DecidableEq, Repr

/-- PIL `f.resize(base_size)`: new dimensions, same underlying content. -/
def resizeImg (i : Img) (w h : Nat) : Img := { width := w, height := h, tag := i.tag }

structure ContentItem where
  content_type : String
  title : String
  description : String
  image_url : String
  prompt_used : String
deriving DecidableEq, Repr

structure Msg where
  role : String
  message_type : String
  content : String
deriving DecidableEq, Repr

/-- The JSON dict stored in `Conversation.user_context`; the key
`preferred_styles` may be absent (`none`). -/
structure UserCtx where
  preferredStyles : Option (List String) := none
deriving DecidableEq, Repr

/-- A conversation row: `user_context` (possibly `None`/empty, both modelled
by `none`) and its messages in `created_at` order. -/
structure Conversation where
  userContext : Option UserCtx := none
  messages : List Msg := []
deriving DecidableEq, Repr

/-- The concrete provider endpoints the service can call out to. -/
inductive Provider where
  | cloudflare      -- Cloudflare Workers AI img2img (free, synchronous)
  | aihorde         -- AI Horde img2img (free, asynchronous community workers, polled)
  | nvidiaImg2Img   -- NVIDIA NIM SDXL img2img (premium diffusion)
  | hfEdit          -- Hugging Face InstructPix2Pix (instruction-following edit)
  | pollinations    -- Pollinations.AI text-to-image (unlimited free)
  | nvidiaImage     -- NVIDIA NIM SDXL text-to-image
  | imagen          -- Google Imagen batch text-to-image
  | hfImage         -- Hugging Face SDXL text-to-image
  | replicate       -- Replicate text-to-video
  | mockGen         -- local deterministic mock generator
deriving DecidableEq, Repr

/-- One recorded provider invocation: which endpoint, with which prompt. -/
structure Call where
  provider : Provider
  prompt : String
deriving DecidableEq, Repr

/-- The ambient environment of one request: which API keys are configured,
what every network endpoint would answer (as a function of the prompt sent
to it, `none` = any failure), the storage/compositing outcomes, the values
the `random` module would draw, and `str(datetime.now().timestamp())`.  -/
structure Env where
  geminiClient : Bool
  nvidiaKey : Bool
  hfKey : Bool
  cloudflareConf : Bool
  replicateToken : Bool
  geminiLabel : String → Option String
  geminiText : String → Option String
  nvidiaText : String → Option String
  cloudflare : String → Option String
  aihorde : String → Option String
  nvidiaI2I : String → Option String
  hfEditApi : String → Option String
  nvidiaImg : String → Option String
  imagenBatch : String → List String
  hfImg : String → Option String
  pollin : String → Option String
  replicateVideo : String → Option String
  fetchImg : String → Option Img
  storeGif : Gif → String
  compositeResult : String → Option String
  refFileExists : String → Bool
  randStyle : Nat → String
  pickText : List String → String
  nowTs : String

/-- The returned dict of `generate_response`, plus the two side effects the
embedding makes explicit: the possibly-updated conversation row and the
ordered list of provider invocations. -/
structure GenResult where
  intent : String
  confidence : ℚ
  response_text : String
  content_items : List ContentItem
  message_type : String
  conversation : Option Conversation
  trace : List Call

/-! ## Intent classification (`INTENT_MAP`, `classify_intent`) -/

/-- The trigger-phrase map, in the dict insertion (enumeration) order of the
source. -/
def INTENT_MAP : List (String × List String) :=
  [("image_generation",
    ["paint", "draw", "create", "generate", "make", "imagine", "design",
     "sketch", "illustrate", "render", "visualize", "show me",
     "image", "photo", "picture", "pic"]),
   ("image_transformation",
    ["transform", "turn this", "convert", "reimagine", "restyle",
     "renaissance", "style transfer", "remake", "enhance", "edit"]),
   ("poster_design",
    ["poster", "signage", "sign", "banner", "flyer", "quote poster",
     "sale poster", "menu", "advertisement"]),
   ("vision_board",
    ["vision board", "moodboard", "mood board", "goals", "collage",
     "inspiration board"]),
   ("brand_artwork",
    ["brand", "logo", "branding", "brand-themed", "product video",
     "apple-esque", "premium", "campaign", "marketing"]),
   ("story_sequence",
    ["story", "storybook", "scene by scene", "sequence", "narrative",
     "chapter", "tale"]),
   ("video_loop",
    ["video loop", "animation", "animated", "motion", "looping",
     "cinematic", "video", "movie", "clip"]),
   ("product_mockup",
    ["mockup", "mock up", "product", "t-shirt", "tshirt", "mug",
     "phone case", "hoodie", "merchandise", "merch", "put this on",
     "place on", "print on"]),
   ("text_only",
    ["text", "chat", "ask", "question", "write", "poem", "essay",
     "story", "script", "code", "explain", "tell me", "lyrics"])]

def STYLES : List String :=
  ["ethereal", "vibrant", "moody", "minimalist", "surrealist",
   "impressionist", "photorealistic", "watercolor", "oil painting",
   "digital art", "abstract", "cinematic", "dreamy", "bold",
   "vintage", "futuristic", "noir", "pastel", "geometric"]

/-- Weighted scoring: video and text keywords get weight 2. -/
def kwWeight (intent : String) : Nat :=
  if intent == "video_loop" || intent == "text_only" then 2 else 1

/-- Score of one `INTENT_MAP` entry against the lowered text: the Python
`sum(weight for kw in keywords if kw in text_lower)`, i.e. the weight times
the number of matching trigger phrases. -/
def intentScorePair (tl : String) (p : String × List String) : Nat :=
  kwWeight p.1 * p.2.countP (fun kw => pyIn kw tl)

/-- The `scores` dict: entries with positive score, in insertion order. -/
def keywordScores (tl : String) : List (String × Nat) :=
  INTENT_MAP.filterMap (fun p =>
    if 0 < intentScorePair tl p then some (p.1, intentScorePair tl p) else none)

/-- Python `max(scores, key=scores.get)`: the running best is replaced only
by a strictly greater score, so the first maximal entry wins. -/
def pickMax : (String × Nat) → List (String × Nat) → String × Nat
  | best, [] => best
  | best, x :: rest => pickMax (if best.2 < x.2 then x else best) rest

/-- The keyword fallback of `classify_intent`: `text_lower` is the lowered
text, `best = max(scores, key=scores.get)`. -/
def keywordClassify (text : String) : String × ℚ :=
  match keywordScores (pyLower text) with
  | [] => ("text_only", 1/2)
  | p :: rest => ((pickMax p rest).1, min (((pickMax p rest).2 : ℚ) / 3) 1)

/-- Labels the remote classifier may answer with. -/
def validIntents : List String := INTENT_MAP.map Prod.fst ++ ["text_only"]

/-- `classify_intent`: the Gemini label (an oracle; `none` models any thrown
exception) is accepted at 0.95 only when, stripped and lowered, it is a
valid label; otherwise the keyword fallback runs. -/
def classify_intent (env : Env) (text : String) : String × ℚ :=
  if env.geminiClient then
    match env.geminiLabel text with
    | some raw =>
      let lbl := pyLower (pyStrip raw)
      if validIntents.contains lbl then (lbl, 19/20) else keywordClassify text
    | none => keywordClassify text
  else keywordClassify text

/-! ## Context memory (`_update_user_context`, `_get_context_prompt`) -/

/-- The fixed style vocabulary remembered by `_update_user_context`. -/
def interestingKeywords : List String :=
  ["minimalist", "cyberpunk", "watercolor", "noir", "vintage",
   "abstract", "photorealistic", "3d render", "flat design",
   "apple-esque", "premium", "dark mode", "pastel"]

/-- Styles currently recorded on a conversation (absent context or absent
key both read as the empty list, as `.get('preferred_styles', [])` does). -/
def stylesOf (c : Conversation) : List String :=
  ((c.userContext.getD {}).preferredStyles.getD [])

/-- `_update_user_context`: scan the lowered message for style keywords and,
when any match, fold them into `preferred_styles` with set semantics and
save.  Python builds `list(set(existing + found))`, whose iteration order is
unspecified; the embedding canonicalises it as `dedup` (same membership, no
duplicates).  The Bool records whether `conversation.save()` ran. -/
def update_user_context (conversation : Conversation) (message_text : String)
    (_intent : String) : Conversation × Bool :=
  let found := interestingKeywords.filter (fun kw => pyIn kw (pyLower message_text))
  if found.isEmpty then (conversation, false)
  else
    let current := conversation.userContext.getD {}
    let existing := current.preferredStyles.getD []
    let updated := (existing ++ found).dedup
    ({ conversation with userContext := some { current with preferredStyles := some updated } },
     true)

/-- `_get_context_prompt`. -/
def get_context_prompt (conversation : Option Conversation) : String :=
  match conversation with
  | none => ""
  | some c =>
    match c.userContext with
    | none => ""
    | some uc =>
      let styles := uc.preferredStyles.getD []
      if styles.isEmpty then ""
      else "User prefers these styles: " ++ joinComma styles ++ ". Incorporate them if relevant."

/-! ## GIF stitching (`_create_gif_from_images`) -/

/-- `_create_gif_from_images`: fetch every URL (local path or remote; any
failure silently drops the frame), resize all frames to the first frame's
size, and encode a 500 ms-per-frame, infinitely-looping GIF; `none` when no
frame survived.  The `fps` parameter exists in the source and is unused. -/
def create_gif_from_images (fetch : String → Option Img) (image_urls : List String)
    (_fps : Nat := 2) : Option Gif :=
  let frames := image_urls.filterMap fetch
  match frames with
  | [] => none
  | f0 :: _ =>
    some { frames := frames.map (fun f => resizeImg f f0.width f0.height),
           durationMs := 500, loopCount := 0 }

/-! ## Mock generation (`_generate_seed`, `_get_placeholder_url`,
`_generate_mock_content_items`, `_build_mock_response_text`) -/

/-- `_generate_seed`: first 8 hex digits of the MD5 of the text, as an int. -/
def generate_seed (text : String) : Nat :=
  parseHex ((hexDigest (md5bytes (strBytes text))).toList.take 8)

/-- `_get_placeholder_url`. -/
def get_placeholder_url (seed : Nat) (width : Nat := 800) (height : Nat := 600) : String :=
  "https://picsum.photos/seed/" ++ toString (seed % 1000 + 1) ++ "/"
    ++ toString width ++ "/" ++ toString height

/-- Placeholder dimensions per intent inside the mock loop. -/
def mockDims (intent : String) : Nat × Nat :=
  if intent == "poster_design" then (600, 900)
  else if intent == "vision_board" then (400, 400)
  else if intent == "video_loop" then (1280, 720)
  else (800, 600)

/-- `content_type_map` of `_generate_mock_content_items` (note: `video_loop`
maps to `artwork` here, unlike the real-generation map). -/
def mockContentTypeMap (intent : String) : String :=
  if intent == "image_generation" then "artwork"
  else if intent == "image_transformation" then "photo"
  else if intent == "poster_design" then "poster"
  else if intent == "vision_board" then "vision_board"
  else if intent == "brand_artwork" then "brand_asset"
  else if intent == "story_sequence" then "artwork"
  else if intent == "video_loop" then "artwork"
  else "image"

/-- The picsum URLs pre-generated by the mock loop. -/
def mockUrls (intent text ts : String) (count : Nat) : List String :=
  let seed := generate_seed (text ++ ts)
  (List.range count).map (fun i =>
    let d := mockDims intent
    get_placeholder_url (seed + i * 137) d.1 d.2)

/-- `_generate_mock_content_items`: no items for `text_only`; for
`video_loop` try to stitch four 4-frame mock GIFs and return the ones that
worked; otherwise (and when no GIF worked) one placeholder item per URL. -/
def generate_mock_content_items (env : Env) (intent text : String)
    (count : Nat := 4) : List ContentItem :=
  if intent == "text_only" then []
  else
    let seed := generate_seed (text ++ env.nowTs)
    let content_type := mockContentTypeMap intent
    let mock_urls := mockUrls intent text env.nowTs count
    let video_items : List ContentItem :=
      if intent == "video_loop" then
        (List.range count).filterMap (fun i =>
          let variant_seed := seed + i * 999
          let variant_urls := (List.range 4).map (fun j =>
            get_placeholder_url (variant_seed + j) 1280 720)
          (create_gif_from_images env.fetchImg variant_urls).map (fun g =>
            { content_type := "video",
              title := "Concept Loop " ++ toString (i + 1) ++ " (Mock)",
              description := "Variation " ++ toString (i + 1)
                ++ ": Animated GIF from mock frames.",
              image_url := env.storeGif g,
              prompt_used := "[Mock Video Var " ++ toString (i + 1) ++ "] " ++ text }))
      else []
    if intent == "video_loop" && !video_items.isEmpty then video_items
    else
      mock_urls.enum.map (fun p =>
        let style := env.randStyle p.1
        { content_type := content_type,
          title := pyTitle content_type ++ " — " ++ pyTitle style ++ " (Mock)",
          description := "Mock generated image.",
          image_url := p.2,
          prompt_used := "[" ++ style ++ "] " ++ text })

/-- `_build_mock_response_text` (`random.choice` is the `pickText` oracle). -/
def build_mock_response_text (env : Env) (intent : String) (content_count : Nat) : String :=
  if intent == "text_only" then
    env.pickText
      ["I\x27m listening. How can I help you?",
       "That sounds interesting. Tell me more.",
       "I\x27m here to chat. What\x27s on your mind?",
       "Understood. Is there anything specific you\x27d like to discuss?"]
  else
    let base := env.pickText
      ["I\x27ve created " ++ toString content_count ++ " visuals based on your request.",
       "Here are " ++ toString content_count ++ " creative interpretations.",
       "I\x27ve generated " ++ toString content_count ++ " artworks for you."]
    if intent == "story_sequence" || intent == "brand_artwork" then
      base ++ "\n\n**Option 1:** A bold, modern approach focusing on minimalism.\n\n**Option 2:** A vibrant, energetic style with high contrast.\n\n**Option 3:** A sophisticated, premium look with subtle details."
    else base

/-! ## Provider strategy wrappers

Each wrapper returns what the provider produced (`none` covers the
not-configured early return, every non-2xx status and every caught
exception) together with the network invocations it performed.  A provider
whose API key is absent returns before issuing any request, so it records
no invocation. -/

/-- Quality boosters `_generate_cloudflare_img2img` appends to the prompt
before the request unless already present. -/
def boostPrompt (prompt : String) : String :=
  if pyIn "high quality" (pyLower prompt) then prompt
  else prompt ++ ", high quality, detailed, sharp focus"

/-- `_generate_cloudflare_img2img`. -/
def cloudflareCall (env : Env) (prompt : String) : Option String × List Call :=
  if env.cloudflareConf then
    (env.cloudflare (boostPrompt prompt), [⟨Provider.cloudflare, boostPrompt prompt⟩])
  else (none, [])

/-- `_generate_aihorde_img2img`: anonymous access, no key needed; the
submit/poll/cancel protocol sits behind the oracle. -/
def aihordeCall (env : Env) (prompt : String) : Option String × List Call :=
  (env.aihorde prompt, [⟨Provider.aihorde, prompt⟩])

/-- `_generate_nvidia_image_to_image`. -/
def nvidiaI2ICall (env : Env) (prompt : String) : Option String × List Call :=
  if env.nvidiaKey then (env.nvidiaI2I prompt, [⟨Provider.nvidiaImg2Img, prompt⟩])
  else (none, [])

/-- `_edit_huggingface_image` (InstructPix2Pix). -/
def hfEditCall (env : Env) (prompt : String) : Option String × List Call :=
  if env.hfKey then (env.hfEditApi prompt, [⟨Provider.hfEdit, prompt⟩])
  else (none, [])

/-- `_generate_pollinations_image`: free, unlimited, no key check. -/
def pollinationsCall (env : Env) (prompt : String) : Option String × List Call :=
  (env.pollin prompt, [⟨Provider.pollinations, prompt⟩])

/-- `_generate_nvidia_image` (text-to-image). -/
def nvidiaImageCall (env : Env) (prompt : String) : Option String × List Call :=
  if env.nvidiaKey then (env.nvidiaImg prompt, [⟨Provider.nvidiaImage, prompt⟩])
  else (none, [])

/-- `_generate_imagen_images_batch` (count and aspect ratio are fixed by the
caller and absorbed into the oracle; an exception yields `[]`). -/
def imagenCall (env : Env) (prompt : String) : List String × List Call :=
  if env.geminiClient then (env.imagenBatch prompt, [⟨Provider.imagen, prompt⟩])
  else ([], [])

/-- `_generate_huggingface_image` (text-to-image). -/
def hfImageCall (env : Env) (prompt : String) : Option String × List Call :=
  if env.hfKey then (env.hfImg prompt, [⟨Provider.hfImage, prompt⟩])
  else (none, [])

/-- `_generate_replicate_video` (create prediction, poll, download). -/
def replicateCall (env : Env) (prompt : String) : Option String × List Call :=
  if env.replicateToken then (env.replicateVideo prompt, [⟨Provider.replicate, prompt⟩])
  else (none, [])

/-! ## Real content generation (`_generate_real_content_items`) -/

/-- `content_type_map` of the real generator (`video_loop ↦ video`). -/
def realContentTypeMap (intent : String) : String :=
  if intent == "image_generation" then "artwork"
  else if intent == "image_transformation" then "photo"
  else if intent == "poster_design" then "poster"
  else if intent == "vision_board" then "vision_board"
  else if intent == "brand_artwork" then "brand_asset"
  else if intent == "story_sequence" then "artwork"
  else if intent == "video_loop" then "video"
  else "image"

/-- Aspect ratio and keyword suffix per intent (brand artwork adds the
apple-style boosters when the text mentions apple). -/
def realParams (intent text : String) : String × String :=
  if intent == "poster_design" then ("3:4", ", poster design, typography, graphic design")
  else if intent == "brand_artwork" then
    ("16:9", ", logo, vector art, minimal, professional branding"
      ++ (if pyIn "apple" (pyLower text) then
            ", apple-style, minimalist, sleek, white background, premium lighting" else ""))
  else if intent == "video_loop" then
    ("16:9", ", cinematic shot, movie scene, keyframe, detailed 8k")
  else if intent == "vision_board" then ("1:1", ", moodboard, collage, grid layout, aesthetic")
  else ("1:1", "")

/-- The NVIDIA text-to-image loop: one call per variation, keeping the
successful URLs in order. -/
def nvidiaImageLoop (env : Env) (enhanced : String) (count : Nat) : List String × List Call :=
  (List.range count).foldl (fun acc i =>
    let r := nvidiaImageCall env (enhanced ++ " variation " ++ toString (i + 1))
    (acc.1 ++ r.1.toList, acc.2 ++ r.2)) ([], [])

/-- The Hugging Face fallback loop (2 variations; note the comma in the
variation suffix, unlike the other two loops). -/
def hfImageLoop (env : Env) (enhanced : String) : List String × List Call :=
  (List.range 2).foldl (fun acc i =>
    let r := hfImageCall env (enhanced ++ ", variation " ++ toString (i + 1))
    (acc.1 ++ r.1.toList, acc.2 ++ r.2)) ([], [])

/-- The Pollinations final-fallback loop. -/
def pollinationsLoop (env : Env) (enhanced : String) (count : Nat) : List String × List Call :=
  (List.range count).foldl (fun acc i =>
    let r := pollinationsCall env (enhanced ++ " variation " ++ toString (i + 1))
    (acc.1 ++ r.1.toList, acc.2 ++ r.2)) ([], [])

/-- Shared tail of `_generate_real_content_items`: Hugging Face then
Pollinations fallbacks over the already-collected URLs, then item assembly. -/
def realItemsTail (env : Env) (content_type style enhanced : String)
    (urls : List String) (tr : List Call) : List ContentItem × List Call :=
  let r2 := if urls.isEmpty then hfImageLoop env enhanced else (urls, [])
  let r3 := if r2.1.isEmpty then pollinationsLoop env enhanced 4 else (r2.1, [])
  (r3.1.map (fun u =>
    { content_type := content_type,
      title := pyTitle content_type ++ " — " ++ pyTitle style,
      description := "Generated with AI.",
      image_url := u,
      prompt_used := enhanced }),
   tr ++ r2.2 ++ r3.2)

/-- `_generate_real_content_items`: context-style injection, the
transformation edit special case, then batch generation down the
NVIDIA → Imagen → (GIF for video) → Hugging Face → Pollinations ladder. -/
def generate_real_content_items (env : Env) (intent message_text : String)
    (conversation : Option Conversation) (image_file : Option Img) :
    List ContentItem × List Call :=
  let context_style :=
    match conversation with
    | some c =>
      match c.userContext with
      | some uc =>
        let styles := uc.preferredStyles.getD []
        if styles.isEmpty then "" else ", infusing styles: " ++ joinComma styles
      | none => ""
    | none => ""
  let edit := if intent == "image_transformation" && image_file.isSome then
                hfEditCall env message_text
              else (none, [])
  match edit with
  | (some u, trE) =>
    ([{ content_type := "photo", title := "AI Edited Image",
        description := "Edited based on: " ++ message_text,
        image_url := u, prompt_used := message_text }], trE)
  | (none, trE) =>
    if intent == "text_only" then ([], trE)
    else
      let count := 4
      let style := env.randStyle 0
      let suffix := (realParams intent message_text).2
      let enhanced := message_text ++ ", " ++ style ++ " style" ++ context_style
        ++ suffix ++ ", high quality, detailed"
      let rNv := nvidiaImageLoop env enhanced count
      let rImg := if rNv.1.isEmpty then imagenCall env enhanced else (rNv.1, [])
      let trSoFar := trE ++ rNv.2 ++ rImg.2
      if intent == "video_loop" && decide (2 ≤ rImg.1.length) then
        match create_gif_from_images env.fetchImg rImg.1 with
        | some g =>
          ([{ content_type := "video", title := "AI Generated Concept Loop",
              description := "Animated GIF from concept frames. Style: " ++ style,
              image_url := env.storeGif g, prompt_used := enhanced }], trSoFar)
        | none => realItemsTail env (realContentTypeMap intent) style enhanced rImg.1 trSoFar
      else realItemsTail env (realContentTypeMap intent) style enhanced rImg.1 trSoFar

/-! ## Product mockup (`_generate_product_mockup`) -/

/-- Product-type detection by substring matching on the lowered prompt. -/
def productBasePrompt (text : String) : String :=
  let pl := pyLower text
  if pyIn "t-shirt" pl || pyIn "tshirt" pl || pyIn "shirt" pl then
    "a blank white t-shirt on a flat surface, studio lighting, product photography"
  else if pyIn "mug" pl || pyIn "cup" pl then
    "a blank white ceramic coffee mug, studio lighting, product photography"
  else if pyIn "phone" pl || pyIn "case" pl then
    "a blank white phone case, studio lighting, product photography"
  else if pyIn "hoodie" pl || pyIn "sweater" pl then
    "a blank white hoodie on a flat surface, studio lighting, product photography"
  else "a blank white t-shirt on a flat surface, studio lighting, product photography"

/-- `_generate_product_mockup`: generate a blank base product (NVIDIA first,
then Pollinations), then the PIL download/overlay/composite/save pipeline,
whose outcome (`none` on any stage failure) is the `compositeResult`
oracle. -/
def generate_product_mockup (env : Env) (text : String) : Option String × List Call :=
  let bp := productBasePrompt text
  let r1 := nvidiaImageCall env bp
  let r2 := match r1 with
            | (some u, tr) => (some u, tr)
            | (none, tr) =>
              let rp := pollinationsCall env bp
              (rp.1, tr ++ rp.2)
  match r2 with
  | (some b, tr) => (env.compositeResult b, tr)
  | (none, tr) => (none, tr)

/-! ## The image-to-image fallback chains of `generate_response` -/

/-- The `image_transformation` branch chain (services.py lines 1625–1649):
Cloudflare → AI Horde → NVIDIA img2img → Pollinations text-to-image with
the `", photorealistic, high quality"` qualifier. -/
def transformChain (env : Env) (text : String) : Option String × List Call :=
  match cloudflareCall env text with
  | (some u, tr) => (some u, tr)
  | (none, tr0) =>
    match aihordeCall env text with
    | (some u, tr) => (some u, tr0 ++ tr)
    | (none, tr1) =>
      match nvidiaI2ICall env text with
      | (some u, tr) => (some u, tr0 ++ tr1 ++ tr)
      | (none, tr2) =>
        match pollinationsCall env (text ++ ", photorealistic, high quality") with
        | (some u, tr) => (some u, tr0 ++ tr1 ++ tr2 ++ tr)
        | (none, tr3) => (none, tr0 ++ tr1 ++ tr2 ++ tr3)

/-- The composition-preserving merged prompt of the refinement branch. -/
def refinementMerged (text : String) : String :=
  text ++ ", maintaining the same composition, colors, and subject as the original image, photorealistic, high quality"

/-- The `refinement` branch (services.py lines 1513–1609), after the
referenced file was found: Cloudflare → AI Horde → NVIDIA img2img →
Hugging Face InstructPix2Pix → Pollinations with the merged prompt →
`_generate_real_content_items('image_generation', merged, ...)`. -/
def refinementChain (env : Env) (text : String) (conversation : Option Conversation) :
    List ContentItem × List Call :=
  let mkItem := fun (descr u : String) =>
    ({ content_type := "image_generation", title := "Refined Image",
       description := descr, image_url := u, prompt_used := text } : ContentItem)
  match cloudflareCall env text with
  | (some u, tr) => ([mkItem ("Refined: " ++ pyTake 80 text) u], tr)
  | (none, tr0) =>
    match aihordeCall env text with
    | (some u, tr) => ([mkItem ("Refined: " ++ pyTake 80 text) u], tr0 ++ tr)
    | (none, tr1) =>
      match nvidiaI2ICall env text with
      | (some u, tr) => ([mkItem ("Refined: " ++ pyTake 80 text) u], tr0 ++ tr1 ++ tr)
      | (none, tr2) =>
        match hfEditCall env text with
        | (some u, tr) => ([mkItem ("Refined: " ++ pyTake 80 text) u], tr0 ++ tr1 ++ tr2 ++ tr)
        | (none, tr3) =>
          match pollinationsCall env (refinementMerged text) with
          | (some u, tr) =>
            ([mkItem ("Refined (via text prompt): " ++ pyTake 80 text) u],
             tr0 ++ tr1 ++ tr2 ++ tr3 ++ tr)
          | (none, tr4) =>
            let r := generate_real_content_items env "image_generation"
              (refinementMerged text) conversation none
            (r.1, tr0 ++ tr1 ++ tr2 ++ tr3 ++ tr4 ++ r.2)

/-! ## The orchestrator (`generate_response`) -/

/-- The short follow-up set checked before intent resolution. -/
def SHORT_FOLLOWUPS : List String :=
  ["yes", "yeah", "yep", "sure", "ok", "okay", "more", "another",
   "another one", "do it", "go ahead", "please", "continue", "yes please",
   "one more", "again", "try again"]

/-- `message_text.strip().lower().rstrip('.!') in SHORT_FOLLOWUPS`. -/
def isShortFollowup (t : String) : Bool :=
  SHORT_FOLLOWUPS.contains (pyRstripPunct (pyLower (pyStrip t)))

/-- `conversation.messages.filter(role='assistant').order_by('-created_at').first()`:
the newest assistant message. -/
def lastAssistantMsg (c : Conversation) : Option Msg :=
  (c.messages.filter (fun m => m.role == "assistant")).getLast?

/-- Step 0 of `generate_response`: the intent/confidence decision ladder,
in source order (refinement target, attached image, short follow-up with a
conversation, video mode, image mode, plain classification). -/
def resolveIntent (env : Env) (message_text : String) (conversation : Option Conversation)
    (image_file : Option Img) (mode : Option String) (refinement_url : Option String) :
    String × ℚ :=
  if refinement_url.isSome then ("refinement", 1)
  else if image_file.isSome then ("image_transformation", 1)
  else if isShortFollowup message_text && conversation.isSome then
    match conversation.bind lastAssistantMsg with
    | some m =>
      if m.message_type == "text" then ("text_only", 17/20)
      else (m.message_type, 9/10)
    | none => ("text_only", 17/20)
  else if mode == some "video" then ("video_loop", 1)
  else if mode == some "image" then
    (if (classify_intent env message_text).1 == "text_only" then ("image_generation", 1)
     else classify_intent env message_text)
  else classify_intent env message_text

/-- Step 2 of `generate_response`: the intent-specific branch that may
produce content items directly. -/
def contentBranch (env : Env) (intent message_text : String)
    (conversation : Option Conversation) (image_file : Option Img)
    (refinement_url : Option String) : List ContentItem × List Call :=
  if intent == "refinement" && refinement_url.isSome then
    match refinement_url with
    | some ru =>
      if env.refFileExists ru then refinementChain env message_text conversation
      else ([], [])
    | none => ([], [])
  else if intent == "video_loop" && env.replicateToken then
    match replicateCall env message_text with
    | (some v, tr) =>
      ([{ content_type := "video", title := "AI Video",
          description := "Generated video: " ++ pyTake 60 message_text,
          image_url := v, prompt_used := message_text }], tr)
    | (none, tr) => ([], tr)
  else if intent == "image_transformation" && image_file.isSome then
    match transformChain env message_text with
    | (some v, tr) =>
      ([{ content_type := "image_transformation", title := "Remixed Image",
          description := "Transformed using img2img AI.",
          image_url := v, prompt_used := message_text }], tr)
    | (none, tr) => ([], tr)
  else if intent == "product_mockup" && image_file.isSome then
    match generate_product_mockup env message_text with
    | (some v, tr) =>
      ([{ content_type := "image_generation", title := "Product Mockup",
          description := "Your design placed on a product.",
          image_url := v, prompt_used := message_text }], tr)
    | (none, tr) => ([], tr)
  else ([], [])

/-- Step 4 of `generate_response`: the guaranteed mock fallback, firing
only when no items exist yet and the intent is not `text_only`. -/
def mockFallback (env : Env) (intent message_text : String)
    (r : List ContentItem × List Call) : List ContentItem × List Call :=
  if r.1.isEmpty && intent != "text_only" then
    (generate_mock_content_items env intent message_text,
     r.2 ++ [⟨Provider.mockGen, message_text⟩])
  else r

/-- Steps 2–4 of `generate_response` combined: the branch, then the
real-generation fallback when some provider is configured, then the
guaranteed mock fallback. -/
def finalItems (env : Env) (intent message_text : String)
    (conversation : Option Conversation) (image_file : Option Img)
    (refinement_url : Option String) : List ContentItem × List Call :=
  let r1 := contentBranch env intent message_text conversation image_file refinement_url
  let r2 := if r1.1.isEmpty && (env.geminiClient || env.hfKey || env.nvidiaKey)
               && intent != "text_only" then
              let rr := generate_real_content_items env intent message_text conversation image_file
              (rr.1, r1.2 ++ rr.2)
            else r1
  mockFallback env intent message_text r2

/-- `generate_response`, the entry point.  The chat-history assembly feeds
only the text-generation oracles and is absorbed into them. -/
def generate_response (env : Env) (message_text : String)
    (conversation : Option Conversation := none) (image_file : Option Img := none)
    (mode : Option String := none) (refinement_url : Option String := none) : GenResult :=
  let ic := resolveIntent env message_text conversation image_file mode refinement_url
  let intent := ic.1
  let confidence := ic.2
  let conversation2 := conversation.map (fun c => (update_user_context c message_text intent).1)
  let r := finalItems env intent message_text conversation2 image_file refinement_url
  let response_text :=
    if env.geminiClient || env.nvidiaKey then
      let text_prompt := if image_file.isSome then
          "[User uploaded an image for editing] " ++ message_text
        else message_text
      let t1 := if env.nvidiaKey then env.nvidiaText text_prompt else none
      let t2 := match t1 with
                | some t => some t
                | none => if env.geminiClient then env.geminiText text_prompt else none
      match t2 with
      | some t => t
      | none => build_mock_response_text env intent r.1.length
    else build_mock_response_text env intent r.1.length
  { intent := intent,
    confidence := if confidence = 0 then 1 else confidence,
    response_text := response_text,
    content_items := r.1,
    message_type := intent,
    conversation := conversation2,
    trace := r.2 }

/-! ## Concrete environments used by witnesses and counterexamples -/

/-- No key configured, every network path fails, fixed timestamp and draws. -/
def envNone : Env :=
  { geminiClient := false, nvidiaKey := false, hfKey := false,
    cloudflareConf := false, replicateToken := false,
    geminiLabel := fun _ => none, geminiText := fun _ => none,
    nvidiaText := fun _ => none, cloudflare := fun _ => none,
    aihorde := fun _ => none, nvidiaI2I := fun _ => none,
    hfEditApi := fun _ => none, nvidiaImg := fun _ => none,
    imagenBatch := fun _ => [], hfImg := fun _ => none,
    pollin := fun _ => none, replicateVideo := fun _ => none,
    fetchImg := fun _ => none,
    storeGif := fun _ => "/media/generated/animation_mock.gif",
    compositeResult := fun _ => none, refFileExists := fun _ => false,
    randStyle := fun _ => "vibrant", pickText := fun l => l.getD 0 "",
    nowTs := "1700000000.0" }

/-- Every provider configured, every network attempt fails. -/
def envCfgFail : Env :=
  { envNone with geminiClient := true, nvidiaKey := true, hfKey := true, cloudflareConf := true, replicateToken := true }

/-! ## General lemmas about the embedded list operations -/

/-- A `filterMap` whose function succeeds on every element preserves length. -/
lemma filterMap_length_of_isSome {α β : Type} (f : α → Option β) :
    ∀ l : List α, (∀ a ∈ l, (f a).isSome) → (l.filterMap f).length = l.length := by
  intro l
  induction l with
  | nil => intro _; rfl
  | cons x t ih =>
    intro h
    obtain ⟨y, hy⟩ := Option.isSome_iff_exists.mp (h x (by simp))
    rw [List.filterMap_cons, hy]
    simp only [List.length_cons]
    rw [ih (fun a ha => h a (by simp [ha]))]

/-! ## C9: no-op update when no style keyword occurs -/

/-- C9.  For every conversation and every message text containing none of
the 13 fixed style keywords (in lower case), `_update_user_context` performs
no write at all: the conversation — `user_context` included, an absent
`preferred_styles` key in particular — is returned exactly unchanged and
`save` is never called. -/
theorem context_update_frame (c : Conversation) (text intent : String)
    (h : ∀ kw ∈ interestingKeywords, pyIn kw (pyLower text) = false) :
    update_user_context c text intent = (c, false) ∧ interestingKeywords.length = 13 := by
  have hfil : interestingKeywords.filter (fun kw => pyIn kw (pyLower text)) = [] := by
    apply List.filter_eq_nil_iff.mpr
    intro a ha
    rw [h a ha]
    exact fun hcon => Bool.false_ne_true hcon
  constructor
  · unfold update_user_context
    rw [hfil]
    rfl
  · rfl

/-- Witness for C9 at a concrete conversation and keyword-free text. -/
theorem context_update_frame_witness :
    update_user_context { userContext := none, messages := [] } "hello there" "text_only"
      = ({ userContext := none, messages := [] }, false) ∧ interestingKeywords.length = 13 :=
  context_update_frame { userContext := none, messages := [] } "hello there" "text_only"
    (by decide)

/-! ## C6: context memory only ever adds styles, with set semantics -/

/-- C6.  `_update_user_context` is monotone: the updated `preferred_styles`
contains every style present before plus every recognised style keyword
occurring (lower-cased) in the text; whenever it writes, the stored list is
duplicate-free, and it never introduces a duplicate into a duplicate-free
list; feeding "noir" then "pastel" to a fresh session yields exactly the
set {noir, pastel}. -/
theorem context_memory_monotone (c : Conversation) (text intent : String) :
    (∀ s ∈ stylesOf c, s ∈ stylesOf (update_user_context c text intent).1) ∧
    (∀ kw ∈ interestingKeywords, pyIn kw (pyLower text) = true →
      kw ∈ stylesOf (update_user_context c text intent).1) ∧
    ((stylesOf c).Nodup → (stylesOf (update_user_context c text intent).1).Nodup) ∧
    ((update_user_context c text intent).2 = true →
      (stylesOf (update_user_context c text intent).1).Nodup) ∧
    (stylesOf (update_user_context
        (update_user_context { userContext := none, messages := [] } "noir" "image_generation").1
        "pastel" "image_generation").1).toFinset = ({"noir", "pastel"} : Finset String) := by
  have hscen : (stylesOf (update_user_context
      (update_user_context { userContext := none, messages := [] } "noir" "image_generation").1
      "pastel" "image_generation").1).toFinset = ({"noir", "pastel"} : Finset String) := by
    decide
  by_cases hf : (interestingKeywords.filter (fun kw => pyIn kw (pyLower text))).isEmpty
  · have hupd : update_user_context c text intent = (c, false) := by
      unfold update_user_context
      rw [if_pos hf]
    refine ⟨?_, ?_, ?_, ?_, hscen⟩
    · intro s hs; rw [hupd]; exact hs
    · intro kw hkw hin
      exfalso
      have hmem : kw ∈ interestingKeywords.filter (fun kw => pyIn kw (pyLower text)) :=
        List.mem_filter.mpr ⟨hkw, hin⟩
      rw [List.isEmpty_iff] at hf
      rw [hf] at hmem
      exact absurd hmem (List.not_mem_nil _)
    · intro hnd; rw [hupd]; exact hnd
    · intro hsaved
      rw [hupd] at hsaved
      exact absurd hsaved (by simp)
  · have hstyles : stylesOf (update_user_context c text intent).1
        = ((c.userContext.getD {}).preferredStyles.getD []
            ++ interestingKeywords.filter (fun kw => pyIn kw (pyLower text))).dedup := by
      simp only [update_user_context]
      rw [if_neg hf]
      rfl
    refine ⟨?_, ?_, ?_, ?_, hscen⟩
    · intro s hs
      rw [hstyles]
      exact List.mem_dedup.mpr (List.mem_append_left _ hs)
    · intro kw hkw hin
      rw [hstyles]
      exact List.mem_dedup.mpr (List.mem_append_right _ (List.mem_filter.mpr ⟨hkw, hin⟩))
    · intro _; rw [hstyles]; exact List.nodup_dedup _
    · intro _; rw [hstyles]; exact List.nodup_dedup _

/-- Witness for C6 at a concrete conversation and style-bearing text. -/
theorem context_memory_monotone_witness :
    "noir" ∈ stylesOf (update_user_context { userContext := none, messages := [] }
      "make it noir please" "image_generation").1 ∧
    (stylesOf (update_user_context { userContext := none, messages := [] }
      "make it noir please" "image_generation").1).Nodup :=
  ⟨(context_memory_monotone { userContext := none, messages := [] }
      "make it noir please" "image_generation").2.1 "noir" (by decide) (by decide),
   (context_memory_monotone { userContext := none, messages := [] }
      "make it noir please" "image_generation").2.2.1 (by decide)⟩

/-! ## C5: GIF stitching -/

/-- C5 counterexample.  On the empty URL list every fetch (vacuously)
succeeds, yet `_create_gif_from_images` returns `None` instead of an
animated GIF with one frame per input URL. -/
theorem gif_empty_counterexample :
    (∀ u ∈ ([] : List String), ((fun _ => some (⟨100, 80, 1⟩ : Img)) u).isSome) ∧
    create_gif_from_images (fun _ => some (⟨100, 80, 1⟩ : Img)) [] = none := by
  constructor
  · intro u hu
    exact absurd hu (List.not_mem_nil u)
  · rfl

/-- C5 amended.  For a NONEMPTY list of frame URLs that all fetch and decode
successfully, `_create_gif_from_images` produces one GIF with exactly one
frame per input URL, every frame resized to the first frame's dimensions,
a 500 ms per-frame duration and an infinite loop count (`loop=0`); when
every fetch fails it returns `None` rather than raising. -/
theorem create_gif_spec (fetch : String → Option Img) (urls : List String) :
    (∀ u us, urls = u :: us → (∀ v ∈ urls, (fetch v).isSome) →
      ∃ g i0, fetch u = some i0 ∧ create_gif_from_images fetch urls = some g ∧
        g.frames.length = urls.length ∧ g.durationMs = 500 ∧ g.loopCount = 0 ∧
        ∀ fr ∈ g.frames, fr.width = i0.width ∧ fr.height = i0.height) ∧
    ((∀ v ∈ urls, fetch v = none) → create_gif_from_images fetch urls = none) := by
  constructor
  · rintro u us rfl hall
    obtain ⟨i0, hi0⟩ := Option.isSome_iff_exists.mp (hall u (by simp))
    have hfm : (u :: us).filterMap fetch = i0 :: us.filterMap fetch := by
      rw [List.filterMap_cons, hi0]
    refine ⟨{ frames := (i0 :: us.filterMap fetch).map (fun f => resizeImg f i0.width i0.height),
              durationMs := 500, loopCount := 0 }, i0, hi0, ?_, ?_, rfl, rfl, ?_⟩
    · simp only [create_gif_from_images]
      rw [hfm]
    · simp only [List.length_map, List.length_cons]
      rw [filterMap_length_of_isSome fetch us (fun a ha => hall a (by simp [ha]))]
    · intro fr hfr
      obtain ⟨f, _, rfl⟩ := List.mem_map.mp hfr
      exact ⟨rfl, rfl⟩
  · intro hnone
    have hnil : urls.filterMap fetch = [] :=
      List.filterMap_eq_nil_iff.mpr (fun a ha => hnone a ha)
    simp only [create_gif_from_images]
    rw [hnil]

/-- Concrete fetch table for the C5 witness. -/
def fetchW : String → Option Img := fun u =>
  if u == "a" then some ⟨30, 20, 1⟩
  else if u == "b" then some ⟨10, 10, 2⟩
  else if u == "c" then some ⟨7, 5, 3⟩
  else none

/-- Witness for C5 on the three-frame list [a, b, c]. -/
theorem create_gif_spec_witness :
    ∃ g i0, fetchW "a" = some i0 ∧ create_gif_from_images fetchW ["a", "b", "c"] = some g ∧
      g.frames.length = (["a", "b", "c"] : List String).length ∧
      g.durationMs = 500 ∧ g.loopCount = 0 ∧
      ∀ fr ∈ g.frames, fr.width = i0.width ∧ fr.height = i0.height :=
  (create_gif_spec fetchW ["a", "b", "c"]).1 "a" ["b", "c"] rfl (by decide)

/-! ## C10: the dual role of the trigger word "story" -/

/-- C10.  The trigger "story" occurs in both the `story_sequence` and the
`text_only` keyword sets, and because `text_only` triggers are weighted
twice, keyword classification of the exact text "story" yields
(`text_only`, 2/3), not `story_sequence`. -/
theorem story_keyword_overlap :
    (∃ p ∈ INTENT_MAP, p.1 = "story_sequence" ∧ "story" ∈ p.2) ∧
    (∃ p ∈ INTENT_MAP, p.1 = "text_only" ∧ "story" ∈ p.2) ∧
    (keywordClassify "story").1 = "text_only" ∧
    (keywordClassify "story").2 = 2/3 := by
  refine ⟨by decide, by decide, by decide, ?_⟩
  have h : (keywordClassify "story").2 = min (((2 : Nat) : ℚ) / 3) 1 := rfl
  rw [h]
  rw [show ((2 : Nat) : ℚ) = 2 from by norm_num]
  rw [min_eq_left (by norm_num : (2 : ℚ) / 3 ≤ 1)]

/-! ## C3: the keyword classifier -/

/-- The running best can only grow along `pickMax`. -/
lemma pickMax_ge (l : List (String × Nat)) : ∀ b, b.2 ≤ (pickMax b l).2 := by
  induction l with
  | nil => intro b; exact le_refl _
  | cons x t ih =>
    intro b
    simp only [pickMax]
    by_cases hbx : b.2 < x.2
    · rw [if_pos hbx]
      exact (le_of_lt hbx).trans (ih x)
    · rw [if_neg hbx]
      exact ih b

/-- `pickMax` returns the first maximal element: everything before it in
`b :: l` scores strictly less, everything after scores no more. -/
lemma pickMax_first (l : List (String × Nat)) : ∀ b, ∃ m₁ m₂,
    b :: l = m₁ ++ (pickMax b l) :: m₂ ∧
    (∀ y ∈ m₁, y.2 < (pickMax b l).2) ∧
    (∀ y ∈ m₂, y.2 ≤ (pickMax b l).2) := by
  induction l with
  | nil =>
    intro b
    exact ⟨[], [], rfl, by simp, by simp⟩
  | cons x t ih =>
    intro b
    simp only [pickMax]
    by_cases hbx : b.2 < x.2
    · rw [if_pos hbx]
      obtain ⟨m₁, m₂, hdec, hlt, hle⟩ := ih x
      refine ⟨b :: m₁, m₂, ?_, ?_, hle⟩
      · rw [List.cons_append, ← hdec]
      · intro y hy
        rcases List.mem_cons.mp hy with rfl | hy'
        · exact lt_of_lt_of_le hbx (pickMax_ge t x)
        · exact hlt y hy'
    · rw [if_neg hbx]
      obtain ⟨m₁, m₂, hdec, hlt, hle⟩ := ih b
      cases m₁ with
      | nil =>
        simp only [List.nil_append] at hdec
        injection hdec with h1 h2
        refine ⟨[], x :: m₂, ?_, by simp, ?_⟩
        · simp only [List.nil_append]
          rw [← h1, ← h2]
        · intro y hy
          rcases List.mem_cons.mp hy with rfl | hy'
          · rw [← h1]
            exact le_of_not_lt hbx
          · exact hle y hy'
      | cons z m₁' =>
        rw [List.cons_append] at hdec
        injection hdec with h1 h2
        have hbz : b.2 < (pickMax b t).2 := by
          have hz := hlt z (by simp)
          rw [← h1] at hz
          exact hz
        refine ⟨b :: x :: m₁', m₂, ?_, ?_, hle⟩
        · simp only [List.cons_append]
          conv_lhs => rw [h2]
        · intro y hy
          rcases List.mem_cons.mp hy with rfl | hy'
          · exact hbz
          · rcases List.mem_cons.mp hy' with rfl | hy''
            · exact lt_of_le_of_lt (le_of_not_lt hbx) hbz
            · exact hlt y (by simp [hy''])

/-- Decomposing a `filterMap` image around one element lifts back to a
decomposition of the original list. -/
lemma filterMap_decomp {α β : Type} (f : α → Option β) :
    ∀ (l : List α) (m₁ : List β) (b : β) (m₂ : List β),
      l.filterMap f = m₁ ++ b :: m₂ →
      ∃ l₁ a l₂, l = l₁ ++ a :: l₂ ∧ f a = some b ∧
        l₁.filterMap f = m₁ ∧ l₂.filterMap f = m₂ := by
  intro l
  induction l with
  | nil =>
    intro m₁ b m₂ h
    rw [List.filterMap_nil] at h
    exact absurd h.symm (List.append_ne_nil_of_right_ne_nil _ (List.cons_ne_nil _ _))
  | cons x t ih =>
    intro m₁ b m₂ h
    rw [List.filterMap_cons] at h
    cases hfx : f x with
    | none =>
      rw [hfx] at h
      obtain ⟨l₁, a, l₂, hdec, hfa, hm₁, hm₂⟩ := ih m₁ b m₂ h
      exact ⟨x :: l₁, a, l₂, by rw [hdec, List.cons_append],
        hfa, by rw [List.filterMap_cons, hfx, hm₁], hm₂⟩
    | some y =>
      rw [hfx] at h
      cases m₁ with
      | nil =>
        simp only [List.nil_append] at h
        injection h with h1 h2
        exact ⟨[], x, t, by simp, by rw [hfx, h1], by simp, h2⟩
      | cons z m₁' =>
        rw [List.cons_append] at h
        injection h with h1 h2
        obtain ⟨l₁, a, l₂, hdec, hfa, hm₁, hm₂⟩ := ih m₁' b m₂ h2
        exact ⟨x :: l₁, a, l₂, by rw [hdec, List.cons_append], hfa,
          by rw [List.filterMap_cons, hfx, hm₁, h1], hm₂⟩

/-- A score of zero for an `INTENT_MAP` entry means none of its triggers
occurs in the lowered text, and conversely. -/
lemma intentScorePair_eq_zero_iff (tl : String) (p : String × List String) :
    intentScorePair tl p = 0 ↔ ∀ kw ∈ p.2, pyIn kw tl = false := by
  unfold intentScorePair
  constructor
  · intro h kw hkw
    have hw : 0 < kwWeight p.1 := by
      unfold kwWeight
      split <;> norm_num
    have hc : p.2.countP (fun kw => pyIn kw tl) = 0 := by
      rcases Nat.mul_eq_zero.mp h with h1 | h2
      · omega
      · exact h2
    have := List.countP_eq_zero.mp hc kw hkw
    simpa using this
  · intro h
    have hc : p.2.countP (fun kw => pyIn kw tl) = 0 :=
      List.countP_eq_zero.mpr (fun a ha => by rw [h a ha]; simp)
    rw [hc, Nat.mul_zero]

/-- The `scores` dict is empty exactly when every entry scores zero. -/
lemma keywordScores_eq_nil_iff (tl : String) :
    keywordScores tl = [] ↔ ∀ p ∈ INTENT_MAP, intentScorePair tl p = 0 := by
  unfold keywordScores
  rw [List.filterMap_eq_nil_iff]
  constructor
  · intro h p hp
    have hp' := h p hp
    by_contra hs
    rw [if_pos (Nat.pos_of_ne_zero hs)] at hp'
    exact absurd hp' (Option.some_ne_none _)
  · intro h p hp
    rw [if_neg]
    rw [h p hp]
    exact lt_irrefl 0

/-- Every entry of the `scores` dict carries a positive score. -/
lemma keywordScores_pos (tl : String) :
    ∀ x ∈ keywordScores tl, 0 < x.2 := by
  intro x hx
  obtain ⟨p, _, hfp⟩ := List.mem_filterMap.mp hx
  by_cases hs : 0 < intentScorePair tl p
  · rw [if_pos hs] at hfp
    cases hfp
    exact hs
  · rw [if_neg hs] at hfp
    exact absurd hfp (by simp)

/-- `keywordClassify` on an empty scores dict. -/
lemma keywordClassify_of_scores_nil {text : String}
    (h : keywordScores (pyLower text) = []) :
    keywordClassify text = ("text_only", 1/2) := by
  unfold keywordClassify
  rw [h]

/-- `keywordClassify` on a nonempty scores dict. -/
lemma keywordClassify_of_scores_cons {text : String} {p : String × Nat}
    {rest : List (String × Nat)} (h : keywordScores (pyLower text) = p :: rest) :
    keywordClassify text
      = ((pickMax p rest).1, min (((pickMax p rest).2 : ℚ) / 3) 1) := by
  unfold keywordClassify
  rw [h]

/-- C3.  The keyword fallback of `classify_intent` returns
(`text_only`, 0.5) when no trigger phrase occurs in the lowered text;
otherwise it returns the weighted arg-max entry of the intent map — ties
broken by enumeration order, `video_loop` and `text_only` triggers counting
twice via `intentScorePair` — with confidence `min(score/3, 1)`; and its
confidence always lies in [0, 1]. -/
theorem keyword_classifier_spec (text : String) :
    ((∀ p ∈ INTENT_MAP, ∀ kw ∈ p.2, pyIn kw (pyLower text) = false) →
      keywordClassify text = ("text_only", 1/2)) ∧
    ((∃ p ∈ INTENT_MAP, ∃ kw ∈ p.2, pyIn kw (pyLower text) = true) →
      ∃ l₁ q l₂, INTENT_MAP = l₁ ++ q :: l₂ ∧
        (keywordClassify text).1 = q.1 ∧
        0 < intentScorePair (pyLower text) q ∧
        (∀ p ∈ INTENT_MAP, intentScorePair (pyLower text) p ≤ intentScorePair (pyLower text) q) ∧
        (∀ p ∈ l₁, intentScorePair (pyLower text) p < intentScorePair (pyLower text) q) ∧
        (keywordClassify text).2 = min ((intentScorePair (pyLower text) q : ℚ) / 3) 1) ∧
    (0 ≤ (keywordClassify text).2 ∧ (keywordClassify text).2 ≤ 1) := by
  refine ⟨?_, ?_, ?_⟩
  · intro h
    exact keywordClassify_of_scores_nil ((keywordScores_eq_nil_iff _).mpr
      (fun p hp => (intentScorePair_eq_zero_iff _ _).mpr (h p hp)))
  · rintro ⟨p₀, hp₀, kw₀, hkw₀, hin₀⟩
    have hpos₀ : 0 < intentScorePair (pyLower text) p₀ := by
      by_contra h0
      have hz : intentScorePair (pyLower text) p₀ = 0 := by omega
      have := (intentScorePair_eq_zero_iff _ _).mp hz kw₀ hkw₀
      rw [hin₀] at this
      exact absurd this (by decide)
    cases hks : keywordScores (pyLower text) with
    | nil =>
      exfalso
      have := (keywordScores_eq_nil_iff _).mp hks p₀ hp₀
      omega
    | cons p rest =>
      obtain ⟨m₁, m₂, hdec, hlt, hle⟩ := pickMax_first rest p
      have hdecomp : INTENT_MAP.filterMap (fun p =>
          if 0 < intentScorePair (pyLower text) p
          then some (p.1, intentScorePair (pyLower text) p) else none)
          = m₁ ++ (pickMax p rest) :: m₂ := by
        have : keywordScores (pyLower text) = m₁ ++ (pickMax p rest) :: m₂ := by
          rw [hks, hdec]
        exact this
      obtain ⟨l₁, a, l₂, hIM, hfa, hfm₁, hfm₂⟩ :=
        filterMap_decomp _ INTENT_MAP m₁ (pickMax p rest) m₂ hdecomp
      have hapos : 0 < intentScorePair (pyLower text) a := by
        by_contra hna
        rw [if_neg hna] at hfa
        exact absurd hfa (by simp)
      have hba : pickMax p rest = (a.1, intentScorePair (pyLower text) a) := by
        rw [if_pos hapos] at hfa
        exact (Option.some.injEq _ _ ▸ hfa).symm
      have hmax : ∀ q' ∈ INTENT_MAP,
          intentScorePair (pyLower text) q' ≤ intentScorePair (pyLower text) a := by
        intro q' hq'
        rw [hIM] at hq'
        rcases List.mem_append.mp hq' with hq₁ | hq₂
        · by_cases hqp : 0 < intentScorePair (pyLower text) q'
          · have hm : (q'.1, intentScorePair (pyLower text) q') ∈ m₁ := by
              rw [← hfm₁]
              exact List.mem_filterMap.mpr ⟨q', hq₁, by rw [if_pos hqp]⟩
            have := hlt _ hm
            rw [hba] at this
            exact le_of_lt this
          · omega
        · rcases List.mem_cons.mp hq₂ with rfl | hq₃
          · exact le_refl _
          · by_cases hqp : 0 < intentScorePair (pyLower text) q'
            · have hm : (q'.1, intentScorePair (pyLower text) q') ∈ m₂ := by
                rw [← hfm₂]
                exact List.mem_filterMap.mpr ⟨q', hq₃, by rw [if_pos hqp]⟩
              have := hle _ hm
              rw [hba] at this
              exact this
            · omega
      refine ⟨l₁, a, l₂, hIM, ?_, hapos, hmax, ?_, ?_⟩
      · rw [keywordClassify_of_scores_cons hks, hba]
      · intro q' hq₁
        by_cases hqp : 0 < intentScorePair (pyLower text) q'
        · have hm : (q'.1, intentScorePair (pyLower text) q') ∈ m₁ := by
            rw [← hfm₁]
            exact List.mem_filterMap.mpr ⟨q', hq₁, by rw [if_pos hqp]⟩
          have := hlt _ hm
          rw [hba] at this
          exact this
        · omega
      · rw [keywordClassify_of_scores_cons hks, hba]
  · cases hks : keywordScores (pyLower text) with
    | nil =>
      rw [keywordClassify_of_scores_nil hks]
      constructor <;> norm_num
    | cons p rest =>
      rw [keywordClassify_of_scores_cons hks]
      constructor
      · exact le_min (by positivity) (by norm_num)
      · exact min_le_right _ _

/-- Witness for C3: a trigger-free text hits the default, a matching text
stays within bounds and realises the arg-max characterisation. -/
theorem keyword_classifier_spec_witness :
    keywordClassify "qwxz" = ("text_only", 1/2) ∧
    (∃ l₁ q l₂, INTENT_MAP = l₁ ++ q :: l₂ ∧
      (keywordClassify "banner").1 = q.1 ∧
      0 < intentScorePair (pyLower "banner") q ∧
      (∀ p ∈ INTENT_MAP, intentScorePair (pyLower "banner") p
        ≤ intentScorePair (pyLower "banner") q) ∧
      (∀ p ∈ l₁, intentScorePair (pyLower "banner") p
        < intentScorePair (pyLower "banner") q) ∧
      (keywordClassify "banner").2 = min ((intentScorePair (pyLower "banner") q : ℚ) / 3) 1) ∧
    (0 ≤ (keywordClassify "banner").2 ∧ (keywordClassify "banner").2 ≤ 1) :=
  ⟨(keyword_classifier_spec "qwxz").1 (by decide),
   (keyword_classifier_spec "banner").2.1 (by decide),
   (keyword_classifier_spec "banner").2.2⟩

/-! ## C1: the guaranteed mock fallback -/

/-- A list that is not `isEmpty` has positive length. -/
lemma one_le_length_of_isEmpty_false {α : Type} {l : List α} (h : l.isEmpty = false) :
    1 ≤ l.length := by
  cases l with
  | nil => simp at h
  | cons x t => simp

/-- The mock generator yields at least one item for every non-text intent:
for `video_loop` either some stitched GIF variant survives, or the loop over
the four pre-generated placeholder URLs runs. -/
lemma generate_mock_content_items_length (env : Env) (intent text : String)
    (h : intent ≠ "text_only") :
    1 ≤ (generate_mock_content_items env intent text).length := by
  simp only [generate_mock_content_items]
  rw [if_neg (by simp [h] : ¬(intent == "text_only") = true)]
  split
  · split
    · next hc2 =>
      exact one_le_length_of_isEmpty_false
        (by simpa using ((Bool.and_eq_true _ _).mp hc2).2)
    · simp [mockUrls]
  · split
    · next hc2 =>
      exact one_le_length_of_isEmpty_false
        (by simpa using ((Bool.and_eq_true _ _).mp hc2).2)
    · simp [mockUrls]

/-- The final mock step never returns an empty item list for a non-text
intent. -/
lemma mockFallback_length (env : Env) (intent text : String)
    (r : List ContentItem × List Call) (h : intent ≠ "text_only") :
    1 ≤ (mockFallback env intent text r).1.length := by
  unfold mockFallback
  split
  · exact generate_mock_content_items_length env intent text h
  · next hcond =>
    have hbne : (intent != "text_only") = true := by
      simp [bne_iff_ne]
      exact h
    cases hemp : r.1.isEmpty with
    | false => exact one_le_length_of_isEmpty_false hemp
    | true => exact absurd (by simp [hemp, hbne]) hcond

/-- The assembled pipeline yields at least one item for non-text intents. -/
lemma finalItems_length (env : Env) (intent text : String)
    (conversation : Option Conversation) (image_file : Option Img)
    (refinement_url : Option String) (h : intent ≠ "text_only") :
    1 ≤ (finalItems env intent text conversation image_file refinement_url).1.length :=
  mockFallback_length env intent text _ h

/-! ## Projection lemmas relating `generate_response` to its stages -/

lemma generate_response_intent (env : Env) (text : String) (conv : Option Conversation)
    (img : Option Img) (mode : Option String) (refUrl : Option String) :
    (generate_response env text conv img mode refUrl).intent
      = (resolveIntent env text conv img mode refUrl).1 := rfl

lemma generate_response_items (env : Env) (text : String) (conv : Option Conversation)
    (img : Option Img) (mode : Option String) (refUrl : Option String) :
    (generate_response env text conv img mode refUrl).content_items
      = (finalItems env (resolveIntent env text conv img mode refUrl).1 text
          (conv.map (fun c =>
            (update_user_context c text (resolveIntent env text conv img mode refUrl).1).1))
          img refUrl).1 := rfl

lemma generate_response_trace (env : Env) (text : String) (conv : Option Conversation)
    (img : Option Img) (mode : Option String) (refUrl : Option String) :
    (generate_response env text conv img mode refUrl).trace
      = (finalItems env (resolveIntent env text conv img mode refUrl).1 text
          (conv.map (fun c =>
            (update_user_context c text (resolveIntent env text conv img mode refUrl).1).1))
          img refUrl).2 := rfl

/-- The keyword confidence is strictly positive. -/
lemma keywordClassify_conf_pos (text : String) : 0 < (keywordClassify text).2 := by
  cases hks : keywordScores (pyLower text) with
  | nil =>
    rw [keywordClassify_of_scores_nil hks]
    norm_num
  | cons p rest =>
    rw [keywordClassify_of_scores_cons hks]
    have hp : 0 < p.2 := keywordScores_pos _ p (by rw [hks]; simp)
    have hb : (0 : ℚ) < ((pickMax p rest).2 : ℚ) := by
      exact_mod_cast lt_of_lt_of_le hp (pickMax_ge rest p)
    exact lt_min (div_pos hb (by norm_num)) (by norm_num)

/-- Every classification confidence is strictly positive. -/
lemma classify_intent_conf_pos (env : Env) (text : String) :
    0 < (classify_intent env text).2 := by
  unfold classify_intent
  split
  · rcases henv : env.geminiLabel text with _ | raw
    · simpa [henv] using keywordClassify_conf_pos text
    · simp only [henv]
      split
      · norm_num
      · exact keywordClassify_conf_pos text
  · exact keywordClassify_conf_pos text

/-- Every resolved confidence is strictly positive (so the final
`confidence or 1.0` never rewrites it). -/
lemma resolveIntent_conf_pos (env : Env) (text : String) (conv : Option Conversation)
    (img : Option Img) (mode : Option String) (refUrl : Option String) :
    0 < (resolveIntent env text conv img mode refUrl).2 := by
  unfold resolveIntent
  split
  · norm_num
  · split
    · norm_num
    · split
      · rcases hm : conv.bind lastAssistantMsg with _ | m
        · simp only [hm]
          norm_num
        · simp only [hm]
          split
          · norm_num
          · norm_num
      · split
        · norm_num
        · split
          · split
            · norm_num
            · exact classify_intent_conf_pos env text
          · exact classify_intent_conf_pos env text

lemma generate_response_confidence (env : Env) (text : String) (conv : Option Conversation)
    (img : Option Img) (mode : Option String) (refUrl : Option String) :
    (generate_response env text conv img mode refUrl).confidence
      = (resolveIntent env text conv img mode refUrl).2 := by
  have hpos := resolveIntent_conf_pos env text conv img mode refUrl
  show (if (resolveIntent env text conv img mode refUrl).2 = 0 then 1
        else (resolveIntent env text conv img mode refUrl).2)
      = (resolveIntent env text conv img mode refUrl).2
  rw [if_neg hpos.ne']

/-- C1.  Every request whose resolved intent is not `text_only` comes back
with at least one content item, in any environment — configured providers or
none; and `_generate_mock_content_items`, the fallback invoked when every
provider path produced nothing, always yields one or more items for a
non-text intent. -/
theorem generate_response_guaranteed_artifact (env : Env) (message_text : String)
    (conversation : Option Conversation) (image_file : Option Img)
    (mode : Option String) (refinement_url : Option String) :
    ((generate_response env message_text conversation image_file mode refinement_url).intent
        ≠ "text_only" →
      1 ≤ (generate_response env message_text conversation image_file mode
            refinement_url).content_items.length) ∧
    (∀ intent, intent ≠ "text_only" →
      1 ≤ (generate_mock_content_items env intent message_text).length) := by
  constructor
  · intro h
    rw [generate_response_intent] at h
    rw [generate_response_items]
    exact finalItems_length env _ message_text _ image_file refinement_url h
  · intro intent h
    exact generate_mock_content_items_length env intent message_text h

/-- Witness for C1: a provider-free environment still returns items for a
visual request. -/
theorem generate_response_guaranteed_artifact_witness :
    (generate_response envNone "draw a cat").intent ≠ "text_only" ∧
    1 ≤ (generate_response envNone "draw a cat").content_items.length ∧
    1 ≤ (generate_mock_content_items envNone "poster_design" "draw a cat").length :=
  ⟨by decide,
   (generate_response_guaranteed_artifact envNone "draw a cat" none none none none).1
     (by decide),
   (generate_response_guaranteed_artifact envNone "draw a cat" none none none none).2
     "poster_design" (by decide)⟩

/-! ## C7: the explicit image-mode override -/

/-- With no refinement target, no attached image and no short follow-up,
mode "image" reduces the intent decision to the classifier plus the
text-only override. -/
lemma resolveIntent_image_mode (env : Env) (text : String) (conversation : Option Conversation)
    (h : isShortFollowup text = false) :
    resolveIntent env text conversation none (some "image") none
      = (if (classify_intent env text).1 == "text_only" then ("image_generation", (1 : ℚ))
         else classify_intent env text) := by
  simp [resolveIntent, h]

/-- C7.  For a request with explicit mode "image" (no image, no refinement
target, not a short follow-up): a classifier verdict of `text_only` is
overridden to `image_generation` at confidence 1.0, and any other verdict is
kept together with its own confidence. -/
theorem explicit_image_mode_override (env : Env) (conversation : Option Conversation)
    (text : String) (h : isShortFollowup text = false) :
    (∀ c : ℚ, classify_intent env text = ("text_only", c) →
      (generate_response env text conversation none (some "image") none).intent
          = "image_generation" ∧
      (generate_response env text conversation none (some "image") none).confidence = 1) ∧
    (∀ i c, classify_intent env text = (i, c) → i ≠ "text_only" →
      (generate_response env text conversation none (some "image") none).intent = i ∧
      (generate_response env text conversation none (some "image") none).confidence = c) := by
  constructor
  · intro c hc
    constructor
    · rw [generate_response_intent, resolveIntent_image_mode env text conversation h, hc]
      simp
    · rw [generate_response_confidence, resolveIntent_image_mode env text conversation h, hc]
      simp
  · intro i c hc hne
    constructor
    · rw [generate_response_intent, resolveIntent_image_mode env text conversation h, hc]
      simp [hne]
    · rw [generate_response_confidence, resolveIntent_image_mode env text conversation h, hc]
      simp [hne]

/-- Witness for C7: "hello" matches no visual trigger. -/
theorem explicit_image_mode_override_witness :
    (generate_response envNone "hello" none none (some "image") none).intent
        = "image_generation" ∧
    (generate_response envNone "hello" none none (some "image") none).confidence = 1 :=
  (explicit_image_mode_override envNone none "hello" (by decide)).1 (1/2) (by rfl)

/-! ## C4: short acknowledgement follow-ups -/

/-- On a short follow-up with a conversation present, the intent decision
reduces to the stored type of the newest assistant message. -/
lemma resolveIntent_short_followup (env : Env) (text : String) (c : Conversation)
    (mode : Option String) (h : isShortFollowup text = true) :
    resolveIntent env text (some c) none mode none
      = (match lastAssistantMsg c with
         | some m => if m.message_type == "text" then ("text_only", (17 : ℚ)/20)
                     else (m.message_type, 9/10)
         | none => ("text_only", 17/20)) := by
  simp [resolveIntent, h]

/-- C4 counterexample.  Assistant messages are stored with
`message_type = intent`, so a prior text-only reply carries the literal
`"text_only"`, which passes the `!= 'text'` check: the short follow-up
"more" after such a message resolves to `text_only` at confidence 0.9, not
0.85 as the claim states. -/
def convC4 : Conversation :=
  { userContext := none,
    messages := [{ role := "assistant", message_type := "text_only", content := "Sure" }] }

theorem short_followup_counterexample :
    isShortFollowup "more" = true ∧
    lastAssistantMsg convC4
      = some { role := "assistant", message_type := "text_only", content := "Sure" } ∧
    (generate_response envNone "more" (some convC4) none none none).intent = "text_only" ∧
    (generate_response envNone "more" (some convC4) none none none).confidence = 9/10 ∧
    (9 : ℚ)/10 ≠ 17/20 := by
  refine ⟨by decide, by decide, by decide, ?_, by norm_num⟩
  rw [generate_response_confidence]
  rfl

/-- C4 amended.  On a short acknowledgement (no refinement target, no
image): if the newest assistant message exists and its stored type is not
the literal `"text"`, that stored type — `"text_only"` included — is reused
at confidence 0.9; only when no assistant message exists, or its stored
type is `"text"`, does the request resolve to `text_only` at 0.85. -/
theorem short_followup_intent_reuse (env : Env) (c : Conversation) (text : String)
    (mode : Option String) (h : isShortFollowup text = true) :
    (∀ m, lastAssistantMsg c = some m → m.message_type ≠ "text" →
      (generate_response env text (some c) none mode none).intent = m.message_type ∧
      (generate_response env text (some c) none mode none).confidence = 9/10) ∧
    (lastAssistantMsg c = none →
      (generate_response env text (some c) none mode none).intent = "text_only" ∧
      (generate_response env text (some c) none mode none).confidence = 17/20) ∧
    (∀ m, lastAssistantMsg c = some m → m.message_type = "text" →
      (generate_response env text (some c) none mode none).intent = "text_only" ∧
      (generate_response env text (some c) none mode none).confidence = 17/20) := by
  refine ⟨?_, ?_, ?_⟩
  · intro m hm hne
    constructor
    · rw [generate_response_intent, resolveIntent_short_followup env text c mode h, hm]
      simp [hne]
    · rw [generate_response_confidence, resolveIntent_short_followup env text c mode h, hm]
      simp [hne]
  · intro hm
    constructor
    · rw [generate_response_intent, resolveIntent_short_followup env text c mode h, hm]
    · rw [generate_response_confidence, resolveIntent_short_followup env text c mode h, hm]
  · intro m hm he
    constructor
    · rw [generate_response_intent, resolveIntent_short_followup env text c mode h, hm]
      simp [he]
    · rw [generate_response_confidence, resolveIntent_short_followup env text c mode h, hm]
      simp [he]

/-- Witness for C4 at a poster-design prior message. -/
def convPoster : Conversation :=
  { userContext := none,
    messages := [{ role := "assistant", message_type := "poster_design", content := "Here" }] }

theorem short_followup_intent_reuse_witness :
    (generate_response envNone "more" (some convPoster) none none none).intent
        = "poster_design" ∧
    (generate_response envNone "more" (some convPoster) none none none).confidence = 9/10 :=
  (short_followup_intent_reuse envNone convPoster "more" none (by decide)).1
    { role := "assistant", message_type := "poster_design", content := "Here" }
    (by decide) (by decide)

/-! ## C8: the mock seed mixes the wall-clock timestamp into the hash -/

/-- Pointwise-equal functions map lists equally. -/
lemma list_map_ext {α β : Type} {f g : α → β} (l : List α) (h : ∀ a, f a = g a) :
    l.map f = l.map g := by
  induction l with
  | nil => rfl
  | cons x t ih => simp [h x, ih]

set_option maxRecDepth 40000 in
/-- C8.  The mock seed is `md5(text + str(timestamp))[:8]`: for the fixed
text "hello" two timestamp strings exist under which the selected
placeholder URL differs (so mock output is not a function of the text
alone), while for a fixed text and timestamp the placeholder URLs of the
mock items are exactly the seed-determined list `mockUrls` — a function of
the text, the timestamp and the intent only. -/
theorem mock_seed_timestamp_dependence :
    (∃ ts₁ ts₂ : String, ts₁ ≠ ts₂ ∧
      get_placeholder_url (generate_seed ("hello" ++ ts₁)) 800 600
        ≠ get_placeholder_url (generate_seed ("hello" ++ ts₂)) 800 600) ∧
    (∀ (env : Env) (intent text : String), intent ≠ "text_only" → intent ≠ "video_loop" →
      (generate_mock_content_items env intent text).map ContentItem.image_url
        = mockUrls intent text env.nowTs 4) := by
  constructor
  · exact ⟨"1700000000.0", "1700000001.0", by decide, by decide⟩
  · intro env intent text h1 h2
    have hvl : (intent == "video_loop") = false := by simp [h2]
    simp only [generate_mock_content_items]
    rw [if_neg (by simp [h1] : ¬(intent == "text_only") = true)]
    split
    · next hc =>
      exfalso
      rw [hvl] at hc
      exact absurd hc (by simp)
    · rw [if_neg (by simp : ¬(intent == "video_loop" && ! List.isEmpty ([] : List ContentItem)) = true)]
      rw [List.map_map]
      calc ((mockUrls intent text env.nowTs 4).enum.map
              (ContentItem.image_url ∘ fun p =>
                { content_type := mockContentTypeMap intent,
                  title := pyTitle (mockContentTypeMap intent) ++ " — "
                    ++ pyTitle (env.randStyle p.1) ++ " (Mock)",
                  description := "Mock generated image.",
                  image_url := p.2,
                  prompt_used := "[" ++ env.randStyle p.1 ++ "] " ++ text }))
          = (mockUrls intent text env.nowTs 4).enum.map Prod.snd :=
            list_map_ext _ (fun a => rfl)
        _ = mockUrls intent text env.nowTs 4 := List.enum_map_snd _

set_option maxRecDepth 40000 in
/-- Witness for C8 at a concrete intent, text and environment. -/
theorem mock_seed_timestamp_dependence_witness :
    (generate_mock_content_items envNone "poster_design" "hello").map ContentItem.image_url
      = mockUrls "poster_design" "hello" "1700000000.0" 4 :=
  mock_seed_timestamp_dependence.2 envNone "poster_design" "hello" (by decide) (by decide)

/-! ## C2: the image-transformation fallback chain -/

/-- With no provider key configured and the whole transformation chain
failed, `generate_response` for an attached-image request ends at the local
mock generator. -/
lemma transform_mock_fallback (env : Env) (text : String) (img : Img)
    (hg : env.geminiClient = false) (hh : env.hfKey = false) (hn : env.nvidiaKey = false)
    (ht : (transformChain env text).1 = none) :
    (generate_response env text none (some img) none none).content_items
      = generate_mock_content_items env "image_transformation" text ∧
    (generate_response env text none (some img) none none).content_items ≠ [] := by
  rcases hTC : transformChain env text with ⟨o, tr⟩
  rw [hTC] at ht
  simp only at ht
  subst ht
  have hitems : (generate_response env text none (some img) none none).content_items
      = (finalItems env "image_transformation" text none (some img) none).1 := by
    rw [generate_response_items]
    rfl
  rw [hitems]
  have hbranch : contentBranch env "image_transformation" text none (some img) none
      = ([], tr) := by
    simp [contentBranch, hTC]
  have hgate : (env.geminiClient || env.hfKey || env.nvidiaKey) = false := by
    rw [hg, hh, hn]
    rfl
  have hfi : (finalItems env "image_transformation" text none (some img) none).1
      = generate_mock_content_items env "image_transformation" text := by
    simp only [finalItems]
    rw [hbranch]
    simp [mockFallback, hgate]
  rw [hfi]
  refine ⟨rfl, ?_⟩
  intro hnil
  have hlen := generate_mock_content_items_length env "image_transformation" text (by decide)
  rw [hnil] at hlen
  simp at hlen

/-- C2 amended.  The transformation chain tries Cloudflare (free,
synchronous), then AI Horde (free, asynchronous, polled), then NVIDIA
img2img (premium diffusion), then degrades to Pollinations text-to-image
with the `", photorealistic, high quality"` qualifier — NOT a
composition-preserving qualifier, and with no instruction-following edit
provider inside the chain; each later provider is invoked exactly when
every earlier one was unconfigured or returned no result; and when no
provider key is configured at all and the chain fails, the local mock
generator supplies the items. -/
theorem transformation_chain_order (env : Env) (text : String) (img : Img) :
    ((((transformChain env text).2.map Call.provider).Sublist
        [Provider.cloudflare, Provider.aihorde, Provider.nvidiaImg2Img,
         Provider.pollinations]) ∧
     (Provider.cloudflare ∈ (transformChain env text).2.map Call.provider ↔
        env.cloudflareConf = true) ∧
     (Provider.aihorde ∈ (transformChain env text).2.map Call.provider ↔
        (cloudflareCall env text).1 = none) ∧
     (Provider.nvidiaImg2Img ∈ (transformChain env text).2.map Call.provider ↔
        ((cloudflareCall env text).1 = none ∧ (aihordeCall env text).1 = none ∧
          env.nvidiaKey = true)) ∧
     (Provider.pollinations ∈ (transformChain env text).2.map Call.provider ↔
        ((cloudflareCall env text).1 = none ∧ (aihordeCall env text).1 = none ∧
          (nvidiaI2ICall env text).1 = none)) ∧
     (∀ c ∈ (transformChain env text).2, c.provider = Provider.pollinations →
        c.prompt = text ++ ", photorealistic, high quality") ∧
     ((transformChain env text).1 = none ↔
        ((cloudflareCall env text).1 = none ∧ (aihordeCall env text).1 = none ∧
          (nvidiaI2ICall env text).1 = none ∧
          (pollinationsCall env (text ++ ", photorealistic, high quality")).1 = none))) ∧
    (env.geminiClient = false → env.hfKey = false → env.nvidiaKey = false →
      (transformChain env text).1 = none →
      (generate_response env text none (some img) none none).content_items
        = generate_mock_content_items env "image_transformation" text ∧
      (generate_response env text none (some img) none none).content_items ≠ []) := by
  constructor
  · cases hconf : env.cloudflareConf <;>
    cases hcf : env.cloudflare (boostPrompt text) <;>
    cases hah : env.aihorde text <;>
    cases hnk : env.nvidiaKey <;>
    cases hni : env.nvidiaI2I text <;>
    cases hpl : env.pollin (text ++ ", photorealistic, high quality") <;>
    simp_all [transformChain, cloudflareCall, aihordeCall, nvidiaI2ICall,
      pollinationsCall]
  · exact fun hg hh hn ht => transform_mock_fallback env text img hg hh hn ht

/-- Witness for C2: with nothing configured the chain fails over to the
mock items. -/
theorem transformation_chain_order_witness :
    (generate_response envNone "edit this" none (some ⟨8, 8, 1⟩) none none).content_items
      = generate_mock_content_items envNone "image_transformation" "edit this" ∧
    (generate_response envNone "edit this" none (some ⟨8, 8, 1⟩) none none).content_items
      ≠ [] :=
  (transformation_chain_order envNone "edit this" ⟨8, 8, 1⟩).2 rfl rfl rfl (by decide)

set_option maxRecDepth 40000 in
/-- C2 counterexample.  With every provider configured and every network
attempt failing, an image-transformation request invokes Cloudflare, AI
Horde, NVIDIA img2img and then Pollinations — NOT the instruction-following
edit provider, which the claim places fourth; and the degrade prompt is
`", photorealistic, high quality"`, which carries no composition-preserving
qualifier. -/
theorem transformation_chain_counterexample :
    (generate_response envCfgFail "restyle this photo" none (some ⟨512, 512, 7⟩)
        none none).intent = "image_transformation" ∧
    (((generate_response envCfgFail "restyle this photo" none (some ⟨512, 512, 7⟩)
        none none).trace.map Call.provider).take 4
      = [Provider.cloudflare, Provider.aihorde, Provider.nvidiaImg2Img,
         Provider.pollinations]) ∧
    (((generate_response envCfgFail "restyle this photo" none (some ⟨512, 512, 7⟩)
        none none).trace.map Call.provider).take 5
      ≠ [Provider.cloudflare, Provider.aihorde, Provider.nvidiaImg2Img,
         Provider.hfEdit, Provider.pollinations]) ∧
    ((generate_response envCfgFail "restyle this photo" none (some ⟨512, 512, 7⟩)
        none none).trace.find? (fun c => c.provider == Provider.pollinations)
      = some ⟨Provider.pollinations, "restyle this photo, photorealistic, high quality"⟩) ∧
    pyIn "composition" "restyle this photo, photorealistic, high quality" = false := by
  exact ⟨by decide, by decide, by decide, by decide, by decide⟩
